import Mathlib

/-!
Verification of the pruning engine in plugins/snapshot/pruning.go.

The four functions of the source file (pruneUnconfirmedMessages,
pruneMilestone, pruneMessages, pruneDatabase) are translated here as pure
state-passing functions over a Store record.  The external collaborators
(the tangle vertex store, the dag parent walker, the utxo ledger, the
database garbage collector and the forEachSolidEntryPoint walker) are not
part of the source file; they are modelled from the spec, section 6, as
fields of the Store plus an Oracle of externally determined outcomes.

Machine integers: milestone indices are uint32 in the source; every
arithmetic step of the translated code is only reached in ranges far from
overflow (the source checks SnapshotIndex bounds first), so indices are
modelled as Nat.

History fields: everSetPruning, persistTrace, deletionCalls and gcRan are
observer variables recording, respectively, whether the pruning flag was
ever raised, every retention-state record handed to SetSnapshotInfo, every
identifier set handed to the vertex deletion engine, and whether the
storage garbage collection was triggered.  No translated code reads them.
-/

namespace Snapshot

/-- A vertex (message): up to two parents, an optional indexation payload
key, and the confirmation flag of its metadata.  Modelled from the spec,
section 3, Vertex; the source accesses these through
GetParent1MessageID, GetParent2MessageID, CheckIfIndexation and
IsConfirmed. -/
structure Msg where
  parent1 : Nat
  parent2 : Nat
  indexation : Option Nat
  confirmed : Bool
deriving DecidableEq

/-- The persisted retention state, spec section 3: SnapshotIndex,
EntryPointIndex, PruningIndex. -/
structure SnapshotInfo where
  snapshotIndex : Nat
  entryPointIndex : Nat
  pruningIndex : Nat
deriving DecidableEq

/-- Modelled from the spec: the external persistent store of section 6
plus the solid-entry-point manager state and the pruning status flag.
The last four fields are history variables (see the file comment). -/
structure Store where
  msgs : List (Nat × Msg)
  childEdges : List (Nat × Nat)
  indexations : List (Nat × Nat)
  unconfirmed : List (Nat × Nat)
  milestones : List (Nat × Nat)
  ledgerDiffs : List Nat
  snapshotInfo : Option SnapshotInfo
  seps : List (Nat × Nat)
  storedSeps : List (Nat × Nat)
  pruningFlag : Bool
  everSetPruning : Bool
  persistTrace : List SnapshotInfo
  deletionCalls : List (List Nat)
  gcRan : Bool
deriving DecidableEq

/-- Association list lookup by key. -/
def lookupKey {β : Type} (l : List (Nat × β)) (k : Nat) : Option β :=
  (l.find? (fun p => p.1 == k)).map (·.2)

/-- Association list removal of every entry with the given key. -/
def eraseKey {β : Type} (l : List (Nat × β)) (k : Nat) : List (Nat × β) :=
  l.filter (fun p => p.1 != k)

/-- tangle.GetCachedMessageOrNil and tangle.GetCachedMessageMetadataOrNil:
the source stores message and metadata under the same identifier; both
lookups are absent exactly when the vertex was deleted. -/
def lookupMsg (s : Store) (id : Nat) : Option Msg :=
  lookupKey s.msgs id

/-- tangle.DeleteMessage. -/
def deleteMessage (s : Store) (id : Nat) : Store :=
  { s with msgs := eraseKey s.msgs id }

/-- tangle.DeleteChild: removes the child edge parent -> child. -/
def deleteChild (s : Store) (parent child : Nat) : Store :=
  { s with childEdges := s.childEdges.filter (fun e => !(e.1 == parent && e.2 == child)) }

/-- tangle.DeleteChildren: removes every child edge leaving the vertex. -/
def deleteChildren (s : Store) (id : Nat) : Store :=
  { s with childEdges := s.childEdges.filter (fun e => e.1 != id) }

/-- tangle.DeleteIndexation: removes the secondary index entry. -/
def deleteIndexation (s : Store) (key : Nat) (id : Nat) : Store :=
  { s with indexations := s.indexations.filter (fun e => !(e.1 == key && e.2 == id)) }

/-- tangle.GetUnconfirmedMessageIDs for a milestone index. -/
def getUnconfirmedMessageIDs (s : Store) (i : Nat) : List Nat :=
  (s.unconfirmed.filter (fun p => p.1 == i)).map (·.2)

/-- tangle.DeleteUnconfirmedMessages: drops every unconfirmed-index entry
for the milestone index. -/
def deleteUnconfirmedMessages (s : Store) (i : Nat) : Store :=
  { s with unconfirmed := s.unconfirmed.filter (fun p => p.1 != i) }

/-- tangle.GetCachedMilestoneOrNil: yields the tail vertex identifier of
the milestone. -/
def lookupMilestone (s : Store) (i : Nat) : Option Nat :=
  lookupKey s.milestones i

/-- tangle.DeleteMilestone. -/
def deleteMilestone (s : Store) (i : Nat) : Store :=
  { s with milestones := eraseKey s.milestones i }

/-- The ledger diff removal performed by utxo.PruneMilestoneIndex on its
success path. -/
def pruneLedgerDiffStore (s : Store) (i : Nat) : Store :=
  { s with ledgerDiffs := s.ledgerDiffs.filter (fun j => j != i) }

/-- tangle.SetSnapshotInfo; also records the persisted value in the
persistTrace history. -/
def setSnapshotInfo (s : Store) (info : SnapshotInfo) : Store :=
  { s with snapshotInfo := some info, persistTrace := s.persistTrace ++ [info] }

/-- setIsPruning from the source; everSetPruning is the history variable
remembering that the flag was raised at least once. -/
def setIsPruning (s : Store) (value : Bool) : Store :=
  { s with pruningFlag := value, everSetPruning := s.everSetPruning || value }

/-- tangle.ResetSolidEntryPoints: clears the in-memory boundary set. -/
def resetSolidEntryPoints (s : Store) : Store :=
  { s with seps := [] }

/-- tangle.SolidEntryPointsAdd. -/
def solidEntryPointsAdd (s : Store) (id : Nat) (i : Nat) : Store :=
  { s with seps := s.seps ++ [(id, i)] }

/-- tangle.StoreSolidEntryPoints: persists the in-memory boundary set,
replacing the previously persisted one wholesale. -/
def storeSolidEntryPoints (s : Store) : Store :=
  { s with storedSeps := s.seps }

/-- database.RunGarbageCollection, recorded as a history bit. -/
def runGarbageCollection (s : Store) : Store :=
  { s with gcRan := true }

/-- History record of one identifier set handed to the vertex deletion
engine, taken at each call site of pruneMessages. -/
def recordDeletionCall (s : Store) (ids : List Nat) : Store :=
  { s with deletionCalls := s.deletionCalls ++ [ids] }

/-- The per-identifier body of pruneMessages: skip absent vertices,
otherwise remove both parent back-references, all child edges, the
indexation entry when the payload carries one, and the vertex record. -/
def pruneMessageStep (s : Store) (id : Nat) : Store :=
  match lookupMsg s id with
  | none => s
  | some msg =>
    let s := deleteChild s msg.parent1 id
    let s := deleteChild s msg.parent2 id
    let s := deleteChildren s id
    let s := match msg.indexation with
             | some key => deleteIndexation s key id
             | none => s
    deleteMessage s id

/-- pruneMessages from the source: removes all associated data of the
given identifiers and returns the size of the given set.  The Go map of
identifiers is modelled as a duplicate-free list; the claims proved below
do not depend on its iteration order. -/
def pruneMessages (s : Store) (messageIDsToDelete : List Nat) : Store × Nat :=
  (messageIDsToDelete.foldl pruneMessageStep s, messageIDsToDelete.length)

/-- The candidate-collection loop of pruneUnconfirmedMessages: walk the
unconfirmed index entries for the milestone, deduplicate, skip vertices
already deleted and vertices meanwhile confirmed. -/
def collectUnconfirmedToDelete (s : Store) (targetIndex : Nat) : List Nat :=
  (getUnconfirmedMessageIDs s targetIndex).foldl
    (fun acc id =>
      if id ∈ acc then acc
      else
        match lookupMsg s id with
        | none => acc
        | some msg => if msg.confirmed then acc else acc ++ [id])
    []

/-- pruneUnconfirmedMessages from the source: collects the still
unconfirmed candidates, hands them to the deletion engine, then clears the
unconfirmed index for the milestone; returns the deleted and checked
counts. -/
def pruneUnconfirmedMessages (s : Store) (targetIndex : Nat) : Store × Nat × Nat :=
  let messageIDsToDelete := collectUnconfirmedToDelete s targetIndex
  let s1 := recordDeletionCall s messageIDsToDelete
  let s2 := (pruneMessages s1 messageIDsToDelete).1
  let msgCountDeleted := (pruneMessages s1 messageIDsToDelete).2
  let s3 := deleteUnconfirmedMessages s2 targetIndex
  (s3, msgCountDeleted, messageIDsToDelete.length)

/-- pruneMilestone from the source: utxo.PruneMilestoneIndex first (its
outcome is externally determined, given by ledgerErr), propagating its
error unchanged; on success the milestone record is deleted and nil is
returned. -/
def pruneMilestone (ledgerErr : Nat → Option Nat) (s : Store)
    (milestoneIndex : Nat) : Store × Option Nat :=
  match ledgerErr milestoneIndex with
  | some e => (s, some e)
  | none =>
    let s := pruneLedgerDiffStore s milestoneIndex
    (deleteMilestone s milestoneIndex, none)

/-- Fuel-driven worklist walk over parent edges: pop an identifier, skip
it when already visited or absent from the store (missing parents are
tolerated as a no-op), otherwise record it and push its two parents.  The
fuel argument only ensures termination; coneReachable supplies enough fuel
for the walk to exhaust its worklist (each visit pushes two identifiers
and at most one visit happens per stored vertex). -/
def reachAux (msgs : List (Nat × Msg)) : Nat → List Nat → List Nat → List Nat
  | 0, _, acc => acc
  | _ + 1, [], acc => acc
  | fuel + 1, id :: stack, acc =>
    if id ∈ acc then reachAux msgs fuel stack acc
    else
      match lookupKey msgs id with
      | none => reachAux msgs fuel stack acc
      | some msg => reachAux msgs fuel (msg.parent1 :: msg.parent2 :: stack) (acc ++ [id])

/-- Modelled from the spec: dag.TraverseParents as invoked by
pruneDatabase, with the call-site arguments fixed by the source: the
condition returns true unconditionally, the consumer only collects
identifiers into a deduplicating set, missing parents are a no-op, the
boundary set neither stops nor filters the walk (the source passes
traverseSolidEntryPoints as true: the pruning target index is itself a
solid entry point and is traversed anyway), and no abort signal is
given. -/
def coneReachable (msgs : List (Nat × Msg)) (start : Nat) : List Nat :=
  reachAux msgs (2 * msgs.length + 2) [start] []

/-- Outcome of one pruneDatabase run, following the error taxonomy of the
source: the panic on a missing retention state, the two wrapped sentinel
errors with the numeric values placed in their messages, the propagated
boundary walker error, ErrPruningAborted, and the nil return. -/
inductive PruneResult where
  | panicNoSnapshotInfo
  | notEnoughHistory (minIndex targetIndex : Nat)
  | noPruningNeeded (pruningIndex targetIndex : Nat)
  | walkError (e : Nat)
  | pruningAborted
  | success
deriving DecidableEq

/-- Externally determined outcomes of one run: the enumeration produced by
the forEachSolidEntryPoint walker before it finishes or fails, its error
if any, the abort signal as observed by the loop-top poll at each
milestone index, the outcome of utxo.PruneMilestoneIndex per index, and an
external failure of the cone traversal per index. -/
structure Oracle where
  sepEnum : List (Nat × Nat)
  sepErr : Option Nat
  abortAt : Nat → Bool
  ledgerErr : Nat → Option Nat
  traverseErr : Nat → Option Nat

/-- AdditionalPruningThreshold from the source. -/
def AdditionalPruningThreshold : Nat := 50

/-- Modelled from the spec: SolidEntryPointCheckThresholdPast is defined
outside the source file; the spec fixes PastThreshold to 50. -/
def SolidEntryPointCheckThresholdPast : Nat := 50

/-- The boundary recomputation phase of pruneDatabase: write lock (a no-op
in this sequential model), reset, add every enumerated solid entry point,
store.  The source calls StoreSolidEntryPoints before inspecting the
walker error. -/
def sepPhase (o : Oracle) (s : Store) : Store :=
  storeSolidEntryPoints
    (o.sepEnum.foldl (fun st p => solidEntryPointsAdd st p.1 p.2) (resetSolidEntryPoints s))

/-- The list of milestone indices the pruning loop iterates over: from
PruningIndex plus one up to the target index inclusive. -/
def milestonesToPrune (pruningIndex targetIndex : Nat) : List Nat :=
  List.range' (pruningIndex + 1) (targetIndex - pruningIndex)

/-- One iteration body of the pruning loop (after the abort poll): prune
unconfirmed messages, look up the milestone (absence skips the index),
walk its cone (an external traversal failure skips the index), delete the
milestone metadata (a failure is only logged), delete the collected
vertex set, persist the advanced PruningIndex. -/
def pruneMilestoneStep (o : Oracle) (info : SnapshotInfo) (s : Store)
    (milestoneIndex : Nat) : Store × SnapshotInfo :=
  let s1 := (pruneUnconfirmedMessages s milestoneIndex).1
  match lookupMilestone s1 milestoneIndex with
  | none => (s1, info)
  | some tailId =>
    match o.traverseErr milestoneIndex with
    | some _ => (s1, info)
    | none =>
      let messageIDsToDelete := coneReachable s1.msgs tailId
      let s2 := (pruneMilestone o.ledgerErr s1 milestoneIndex).1
      let s3 := recordDeletionCall s2 messageIDsToDelete
      let s4 := (pruneMessages s3 messageIDsToDelete).1
      let info2 := { info with pruningIndex := milestoneIndex }
      (setSnapshotInfo s4 info2, info2)

/-- The pruning loop: poll the abort signal at the top of each iteration
and stop with the aborted flag when it is set, otherwise run the iteration
body and continue. -/
def pruneLoop (o : Oracle) : List Nat → SnapshotInfo → Store → Store × Bool
  | [], _, s => (s, false)
  | m :: rest, info, s =>
    if o.abortAt m then (s, true)
    else
      let r := pruneMilestoneStep o info s m
      pruneLoop o rest r.2 r.1

/-- The part of pruneDatabase that follows the boundary recomputation
phase: propagate a walker error, otherwise persist the advanced
EntryPointIndex, prune unconfirmed messages for the old PruningIndex, run
the milestone loop, and on normal completion trigger the garbage
collection and return success. -/
def lockedRest (o : Oracle) (s : Store) (snapshotInfo : SnapshotInfo)
    (targetIndex : Nat) : Store × PruneResult :=
  match o.sepErr with
  | some e => (s, .walkError e)
  | none =>
    let info2 := { snapshotInfo with entryPointIndex := targetIndex }
    let s1 := setSnapshotInfo s info2
    let s2 := (pruneUnconfirmedMessages s1 info2.pruningIndex).1
    let lp := pruneLoop o (milestonesToPrune info2.pruningIndex targetIndex) info2 s2
    if lp.2 then (lp.1, .pruningAborted)
    else (runGarbageCollection lp.1, .success)

/-- pruneDatabase between setIsPruning true and the deferred
setIsPruning false. -/
def pruneDatabaseLocked (o : Oracle) (s : Store) (snapshotInfo : SnapshotInfo)
    (targetIndex : Nat) : Store × PruneResult :=
  lockedRest o (sepPhase o s) snapshotInfo targetIndex

/-- pruneDatabase from the source: panic on a missing retention state,
the minimum history check, the clamp of the target index, the
NoPruningNeeded and NotEnoughHistory checks, then the locked body with the
pruning flag raised and cleared on every exit path. -/
def pruneDatabase (o : Oracle) (s : Store) (targetIndex : Nat) : Store × PruneResult :=
  match s.snapshotInfo with
  | none => (s, .panicNoSnapshotInfo)
  | some snapshotInfo =>
    if snapshotInfo.snapshotIndex <
        SolidEntryPointCheckThresholdPast + AdditionalPruningThreshold + 1 then
      (s, .notEnoughHistory
        (SolidEntryPointCheckThresholdPast + AdditionalPruningThreshold + 1) targetIndex)
    else
      let targetIndexMax := snapshotInfo.snapshotIndex - SolidEntryPointCheckThresholdPast -
        AdditionalPruningThreshold - 1
      let targetIndex := if targetIndex > targetIndexMax then targetIndexMax else targetIndex
      if snapshotInfo.pruningIndex ≥ targetIndex then
        (s, .noPruningNeeded snapshotInfo.pruningIndex targetIndex)
      else if snapshotInfo.entryPointIndex + AdditionalPruningThreshold + 1 > targetIndex then
        (s, .notEnoughHistory (snapshotInfo.entryPointIndex + AdditionalPruningThreshold + 1)
          targetIndex)
      else
        let s1 := setIsPruning s true
        let r := pruneDatabaseLocked o s1 snapshotInfo targetIndex
        (setIsPruning r.1 false, r.2)

/-- The Store fields that the deletion engine and the unconfirmed pruner
never touch: used to state preservation lemmas compactly. -/
structure CtrlView where
  milestones : List (Nat × Nat)
  ledgerDiffs : List Nat
  snapshotInfo : Option SnapshotInfo
  seps : List (Nat × Nat)
  storedSeps : List (Nat × Nat)
  pruningFlag : Bool
  everSetPruning : Bool
  persistTrace : List SnapshotInfo
  gcRan : Bool

/-- Projection of a Store onto the fields untouched by vertex deletion. -/
def ctrlView (s : Store) : CtrlView :=
  ⟨s.milestones, s.ledgerDiffs, s.snapshotInfo, s.seps, s.storedSeps,
    s.pruningFlag, s.everSetPruning, s.persistTrace, s.gcRan⟩

/-- Overwrite only the two solid-entry-point fields of a store; used to
state that the rest of a pruning run is independent of the boundary set it
computed. -/
def withSeps (s : Store) (a b : List (Nat × Nat)) : Store :=
  { s with seps := a, storedSeps := b }

/-- A store with every collection empty and no retention state. -/
def emptyStore : Store :=
  { msgs := [], childEdges := [], indexations := [], unconfirmed := [], milestones := [],
    ledgerDiffs := [], snapshotInfo := none, seps := [], storedSeps := [], pruningFlag := false,
    everSetPruning := false, persistTrace := [], deletionCalls := [], gcRan := false }

/-- An oracle where every external collaborator succeeds, the walker
enumerates nothing, and the abort signal never fires. -/
def baseOracle : Oracle :=
  { sepEnum := [], sepErr := none, abortAt := fun _ => false, ledgerErr := fun _ => none,
    traverseErr := fun _ => none }

/-- Store for the boundary-failure counterexample: a nonempty previously
persisted solid-entry-point set and a retention state passing every
precondition of a run with target 899. -/
def c1Store : Store :=
  { emptyStore with snapshotInfo := some ⟨1000, 0, 898⟩, storedSeps := [(42, 5)] }

/-- Oracle whose boundary walker fails immediately. -/
def c1Oracle : Oracle := { baseOracle with sepErr := some 77 }

/-- Store for the boundary-deletion counterexample: milestone 899 is
present with tail vertex 7, whose parents are absent. -/
def c2Store : Store :=
  { emptyStore with
    snapshotInfo := some ⟨1000, 848, 898⟩
    msgs := [(7, ⟨8, 8, none, true⟩)]
    milestones := [(899, 7)] }

/-- Oracle whose boundary walker enumerates the tail vertex of milestone
899 as a solid entry point, matching the source comment that the pruning
target index is itself a solid entry point. -/
def c2Oracle : Oracle := { baseOracle with sepEnum := [(7, 899)] }

/-- Scenario A store of the spec: SnapshotIndex 1000, EntryPointIndex 0,
PruningIndex 0. -/
def scenarioAStore : Store := { emptyStore with snapshotInfo := some ⟨1000, 0, 0⟩ }

/-- Store exercising the NotEnoughHistory threshold rejection: the
EntryPointIndex 860 is too close to the clamped target 899. -/
def c4Store : Store := { emptyStore with snapshotInfo := some ⟨1000, 860, 0⟩ }

/-- Store for the abort counterexample: PruningIndex 897, and milestone
898 is absent so the run skips it without persisting progress. -/
def c5Store : Store := { emptyStore with snapshotInfo := some ⟨1000, 848, 897⟩ }

/-- Oracle whose abort signal is first observed at milestone 899. -/
def c5Oracle : Oracle := { baseOracle with abortAt := fun m => m == 899 }

/-- Store for the abort witness: milestone 898 is present with tail
vertex 9 and is pruned before the abort at 899 is observed. -/
def c5wStore : Store :=
  { emptyStore with
    snapshotInfo := some ⟨1000, 848, 897⟩
    msgs := [(9, ⟨5, 5, none, true⟩)]
    milestones := [(898, 9)] }

/-- Store with a valid retention state 1 le 1 le 153 and a short pruning
range, used to witness the runs of the invariant claims. -/
def c6Store : Store := { emptyStore with snapshotInfo := some ⟨153, 1, 1⟩ }

/-- A ledger oracle that fails on every index with error 9. -/
def c7Ledger : Nat → Option Nat := fun _ => some 9

lemma lookupKey_eraseKey_self {β : Type} (l : List (Nat × β)) (k : Nat) :
    lookupKey (eraseKey l k) k = none := by
  unfold lookupKey eraseKey
  rw [List.find?_filter]
  have h : List.find? (fun a => decide ((a.1 != k) = true ∧ (a.1 == k) = true)) l = none := by
    rw [List.find?_eq_none]
    intro x _
    simp
  rw [h]
  rfl

lemma lookupKey_eraseKey_ne {β : Type} (l : List (Nat × β)) (k j : Nat) (h : j ≠ k) :
    lookupKey (eraseKey l k) j = lookupKey l j := by
  unfold lookupKey eraseKey
  rw [List.find?_filter]
  have hfun : (fun (a : Nat × β) => decide ((a.1 != k) = true ∧ (a.1 == j) = true)) =
      (fun (a : Nat × β) => a.1 == j) := by
    funext a
    by_cases ha : a.1 = j
    · subst ha
      simp [h]
    · simp [ha]
  rw [hfun]

lemma ctrlView_pruneMessageStep (s : Store) (id : Nat) :
    ctrlView (pruneMessageStep s id) = ctrlView s := by
  unfold pruneMessageStep
  cases h : lookupMsg s id with
  | none => rfl
  | some msg => cases hx : msg.indexation <;> simp only [hx] <;> rfl

lemma ctrlView_foldl_pruneMessageStep (ids : List Nat) :
    ∀ s : Store, ctrlView (List.foldl pruneMessageStep s ids) = ctrlView s := by
  induction ids with
  | nil => intro s; rfl
  | cons a t ih =>
    intro s
    rw [List.foldl_cons, ih, ctrlView_pruneMessageStep]

lemma ctrlView_pruneMessages (s : Store) (ids : List Nat) :
    ctrlView (pruneMessages s ids).1 = ctrlView s :=
  ctrlView_foldl_pruneMessageStep ids s

lemma ctrlView_pruneUnconfirmedMessages (s : Store) (i : Nat) :
    ctrlView (pruneUnconfirmedMessages s i).1 = ctrlView s :=
  ctrlView_foldl_pruneMessageStep (collectUnconfirmedToDelete s i)
    (recordDeletionCall s (collectUnconfirmedToDelete s i))

/-- Claim C7: pruneMilestone propagates a ledger-diff deletion error
unchanged and leaves the store, in particular the milestone record,
untouched; on ledger success it removes the ledger diff and the milestone
record and returns nil, so its error is exactly the ledger error. -/
theorem c7_pruneMilestone_error_iff (ledgerErr : Nat → Option Nat) (s : Store)
    (i : Nat) :
    (pruneMilestone ledgerErr s i).2 = ledgerErr i ∧
    (ledgerErr i ≠ none → (pruneMilestone ledgerErr s i).1 = s) ∧
    (ledgerErr i = none →
      (pruneMilestone ledgerErr s i).1 = deleteMilestone (pruneLedgerDiffStore s i) i ∧
      lookupMilestone (pruneMilestone ledgerErr s i).1 i = none) := by
  unfold pruneMilestone
  cases h : ledgerErr i with
  | some e =>
    refine ⟨rfl, fun _ => rfl, fun hc => (by cases hc)⟩
  | none =>
    refine ⟨rfl, fun hc => absurd rfl hc, fun _ => ⟨rfl, ?_⟩⟩
    exact lookupKey_eraseKey_self _ i

/-- Witness for C7: a concrete ledger failure is returned unchanged and
the store is untouched. -/
theorem c7_pruneMilestone_error_iff_witness :
    (pruneMilestone c7Ledger emptyStore 3).2 = some 9 ∧
    (pruneMilestone c7Ledger emptyStore 3).1 = emptyStore := by
  have h := c7_pruneMilestone_error_iff c7Ledger emptyStore 3
  exact ⟨h.1, h.2.1 (by decide)⟩

/-- Claim C8: handing the deletion engine a set of identifiers that are
all absent from the store is a no-op on the store, raises no error (the
translated engine has no error channel, as in the source), and still
returns the size of the handed set. -/
theorem c8_pruneMessages_absent_noop (s : Store) (ids : List Nat)
    (h : ∀ id ∈ ids, lookupMsg s id = none) :
    pruneMessages s ids = (s, ids.length) := by
  unfold pruneMessages
  have hf : ∀ l : List Nat, (∀ id ∈ l, lookupMsg s id = none) →
      List.foldl pruneMessageStep s l = s := by
    intro l
    induction l with
    | nil => intro _; rfl
    | cons a t ih =>
      intro hl
      rw [List.foldl_cons]
      have ha : pruneMessageStep s a = s := by
        unfold pruneMessageStep
        rw [hl a (by simp)]
      rw [ha]
      exact ih (fun id hid => hl id (by simp [hid]))
  rw [hf ids h]

/-- Witness for C8: deleting two absent identifiers changes nothing and
returns the count two. -/
theorem c8_pruneMessages_absent_noop_witness :
    pruneMessages emptyStore [1, 2] = (emptyStore, 2) :=
  c8_pruneMessages_absent_noop emptyStore [1, 2] (by decide)

/-- Claim C9: the deletion engine returns the size of its input set
whether or not the vertices were present, and consequently
pruneUnconfirmedMessages returns a deleted count equal to its checked
count, both being the size of the deduplicated still-unconfirmed
candidate set. -/
theorem c9_counts_equal (s : Store) (ids : List Nat) (i : Nat) :
    (pruneMessages s ids).2 = ids.length ∧
    (pruneUnconfirmedMessages s i).2.1 = (collectUnconfirmedToDelete s i).length ∧
    (pruneUnconfirmedMessages s i).2.2 = (collectUnconfirmedToDelete s i).length ∧
    (pruneUnconfirmedMessages s i).2.1 = (pruneUnconfirmedMessages s i).2.2 :=
  ⟨rfl, rfl, rfl, rfl⟩

/-- Counterexample to claim C1 as stated: the boundary walker fails with
error 77 and pruneDatabase does propagate it, but the previously persisted
solid-entry-point set, which was the nonempty set holding vertex 42, is
replaced by the empty recomputed set, because the source calls
StoreSolidEntryPoints before inspecting the walker error. -/
theorem c1_counterexample :
    (pruneDatabase c1Oracle c1Store 899).2 = .walkError 77 ∧
    c1Store.storedSeps = [(42, 5)] ∧
    (pruneDatabase c1Oracle c1Store 899).1.storedSeps = [] ∧
    (pruneDatabase c1Oracle c1Store 899).1.storedSeps ≠ c1Store.storedSeps := by decide

/-- Counterexample to claim C2 as stated: the run completes successfully,
its computed solid-entry-point set holds vertex 7 (the tail of the target
milestone 899), and vertex 7 is nevertheless a member of an identifier set
handed to the vertex deletion engine during the same run, because the cone
walk is invoked with traverseSolidEntryPoints set to true. -/
theorem c2_counterexample :
    (pruneDatabase c2Oracle c2Store 899).2 = .success ∧
    (pruneDatabase c2Oracle c2Store 899).1.storedSeps = [(7, 899)] ∧
    c2Store.deletionCalls = [] ∧
    ∃ L ∈ (pruneDatabase c2Oracle c2Store 899).1.deletionCalls, 7 ∈ L := by decide

/-- Counterexample to claim C5 as stated: the abort signal is first
observed at the loop-top check for milestone 899, the run returns
PruningAborted, but the persisted PruningIndex is 897 and not 898,
because the absent milestone 898 was skipped without persisting
progress. -/
theorem c5_counterexample :
    c5Oracle.abortAt 899 = true ∧
    c5Oracle.abortAt 898 = false ∧
    (pruneDatabase c5Oracle c5Store 899).2 = .pruningAborted ∧
    (pruneDatabase c5Oracle c5Store 899).1.snapshotInfo = some ⟨1000, 899, 897⟩ ∧
    (some (SnapshotInfo.mk 1000 899 897) ≠ some ⟨1000, 899, 898⟩) := by decide

lemma foldl_solidEntryPointsAdd (l : List (Nat × Nat)) :
    ∀ s : Store, List.foldl (fun st p => solidEntryPointsAdd st p.1 p.2) s l =
      { s with seps := s.seps ++ l } := by
  induction l with
  | nil => intro s; simp
  | cons a t ih =>
    intro s
    rw [List.foldl_cons, ih]
    simp [solidEntryPointsAdd]

lemma sepPhase_eq (o : Oracle) (s : Store) :
    sepPhase o s = withSeps s o.sepEnum o.sepEnum := by
  unfold sepPhase
  rw [show resetSolidEntryPoints s = { s with seps := ([] : List (Nat × Nat)) }
    from rfl]
  rw [foldl_solidEntryPointsAdd]
  rfl

lemma pruneDatabase_main (o : Oracle) (s : Store) (t tc : Nat) (info : SnapshotInfo)
    (hs : s.snapshotInfo = some info)
    (h1 : SolidEntryPointCheckThresholdPast + AdditionalPruningThreshold + 1 ≤ info.snapshotIndex)
    (htc : tc = if t > info.snapshotIndex - SolidEntryPointCheckThresholdPast -
      AdditionalPruningThreshold - 1 then
        info.snapshotIndex - SolidEntryPointCheckThresholdPast - AdditionalPruningThreshold - 1
      else t)
    (h2 : info.pruningIndex < tc)
    (h3 : info.entryPointIndex + AdditionalPruningThreshold + 1 ≤ tc) :
    pruneDatabase o s t =
      (setIsPruning (pruneDatabaseLocked o (setIsPruning s true) info tc).1 false,
       (pruneDatabaseLocked o (setIsPruning s true) info tc).2) := by
  simp only [pruneDatabase, hs]
  have hno1 : ¬ (info.snapshotIndex <
      SolidEntryPointCheckThresholdPast + AdditionalPruningThreshold + 1) := by omega
  have hno2 : ¬ (info.pruningIndex ≥ tc) := by omega
  have hno3 : ¬ (info.entryPointIndex + AdditionalPruningThreshold + 1 > tc) := by omega
  rw [if_neg hno1, ← htc, if_neg hno2, if_neg hno3]

lemma pruneMilestoneStep_skip (o : Oracle) (info : SnapshotInfo) (s : Store) (m : Nat)
    (h : lookupMilestone s m = none ∨ o.traverseErr m ≠ none) :
    (pruneMilestoneStep o info s m).2 = info ∧
    ctrlView (pruneMilestoneStep o info s m).1 = ctrlView s := by
  have hv := ctrlView_pruneUnconfirmedMessages s m
  have hm1 : lookupMilestone (pruneUnconfirmedMessages s m).1 m = lookupMilestone s m := by
    have hmm : (pruneUnconfirmedMessages s m).1.milestones = s.milestones :=
      congrArg CtrlView.milestones hv
    unfold lookupMilestone
    rw [hmm]
  simp only [pruneMilestoneStep]
  rcases h with h | h
  · rw [hm1.trans h]
    exact ⟨rfl, hv⟩
  · cases hlm : lookupMilestone (pruneUnconfirmedMessages s m).1 m with
    | none => exact ⟨rfl, hv⟩
    | some tailId =>
      cases ht : o.traverseErr m with
      | none => exact absurd ht h
      | some e => exact ⟨rfl, hv⟩

lemma pruneLoop_skipAll (o : Oracle) (ms : List Nat) :
    ∀ (info : SnapshotInfo) (s : Store),
      (∀ m ∈ ms, o.abortAt m = false) →
      (∀ m ∈ ms, lookupMilestone s m = none ∨ o.traverseErr m ≠ none) →
      (pruneLoop o ms info s).2 = false ∧
      ctrlView (pruneLoop o ms info s).1 = ctrlView s := by
  induction ms with
  | nil => intro info s _ _; exact ⟨rfl, rfl⟩
  | cons m rest ih =>
    intro info s ha hm
    have hab : o.abortAt m = false := ha m (by simp)
    have hstep := pruneMilestoneStep_skip o info s m (hm m (by simp))
    have hmilEq : (pruneMilestoneStep o info s m).1.milestones = s.milestones :=
      congrArg CtrlView.milestones hstep.2
    have ih2 := ih (pruneMilestoneStep o info s m).2 (pruneMilestoneStep o info s m).1
      (fun m2 h2 => ha m2 (by simp [h2]))
      (fun m2 h2 => by
        rcases hm m2 (by simp [h2]) with h | h
        · left
          rw [show lookupMilestone (pruneMilestoneStep o info s m).1 m2 = lookupMilestone s m2
            from by unfold lookupMilestone; rw [hmilEq]]
          exact h
        · right; exact h)
    rw [pruneLoop, hab]
    simp only [Bool.false_eq_true, if_false]
    exact ⟨ih2.1, ih2.2.trans hstep.2⟩

lemma pruneDatabase_skipAll (o : Oracle) (s : Store) (t tc : Nat) (info : SnapshotInfo)
    (hs : s.snapshotInfo = some info)
    (h1 : SolidEntryPointCheckThresholdPast + AdditionalPruningThreshold + 1 ≤ info.snapshotIndex)
    (htc : tc = if t > info.snapshotIndex - SolidEntryPointCheckThresholdPast -
      AdditionalPruningThreshold - 1 then
        info.snapshotIndex - SolidEntryPointCheckThresholdPast - AdditionalPruningThreshold - 1
      else t)
    (h2 : info.pruningIndex < tc)
    (h3 : info.entryPointIndex + AdditionalPruningThreshold + 1 ≤ tc)
    (hsep : o.sepErr = none)
    (hab : ∀ m, info.pruningIndex + 1 ≤ m → m ≤ tc → o.abortAt m = false)
    (hmil : ∀ m, info.pruningIndex + 1 ≤ m → m ≤ tc →
      lookupMilestone s m = none ∨ o.traverseErr m ≠ none) :
    (pruneDatabase o s t).2 = .success ∧
    (pruneDatabase o s t).1.gcRan = true ∧
    (pruneDatabase o s t).1.snapshotInfo = some ⟨info.snapshotIndex, tc, info.pruningIndex⟩ ∧
    (pruneDatabase o s t).1.persistTrace =
      s.persistTrace ++ [⟨info.snapshotIndex, tc, info.pruningIndex⟩] := by
  have hmainEq := pruneDatabase_main o s t tc info hs h1 htc h2 h3
  have hrange : ∀ m ∈ milestonesToPrune info.pruningIndex tc,
      info.pruningIndex + 1 ≤ m ∧ m ≤ tc := by
    intro m hmem
    rw [milestonesToPrune, List.mem_range'_1] at hmem
    omega
  set sC := (pruneUnconfirmedMessages
    (setSnapshotInfo (withSeps (setIsPruning s true) o.sepEnum o.sepEnum)
      { info with entryPointIndex := tc }) info.pruningIndex).1 with hsC
  have hCmil : sC.milestones = s.milestones := by
    rw [hsC]
    exact congrArg CtrlView.milestones (ctrlView_pruneUnconfirmedMessages _ _)
  have hloop := pruneLoop_skipAll o (milestonesToPrune info.pruningIndex tc)
    { info with entryPointIndex := tc } sC
    (fun m hmem => hab m (hrange m hmem).1 (hrange m hmem).2)
    (fun m hmem => by
      rcases hmil m (hrange m hmem).1 (hrange m hmem).2 with h | h
      · left
        rw [show lookupMilestone sC m = lookupMilestone s m
          from by unfold lookupMilestone; rw [hCmil]]
        exact h
      · right; exact h)
  have hrun : pruneDatabase o s t =
      (setIsPruning (runGarbageCollection
        (pruneLoop o (milestonesToPrune info.pruningIndex tc)
          { info with entryPointIndex := tc } sC).1) false, .success) := by
    rw [hmainEq]
    simp only [pruneDatabaseLocked, lockedRest, hsep]
    rw [sepPhase_eq]
    rw [show ({ info with entryPointIndex := tc } : SnapshotInfo).pruningIndex =
      info.pruningIndex from rfl]
    rw [← hsC, hloop.1]
    simp
  rw [hrun]
  have hctrl := hloop.2
  have hsi : (pruneLoop o (milestonesToPrune info.pruningIndex tc)
      { info with entryPointIndex := tc } sC).1.snapshotInfo = sC.snapshotInfo :=
    congrArg CtrlView.snapshotInfo hctrl
  have hsi2 : sC.snapshotInfo = some ⟨info.snapshotIndex, tc, info.pruningIndex⟩ :=
    congrArg CtrlView.snapshotInfo (ctrlView_pruneUnconfirmedMessages _ _)
  have hpt : (pruneLoop o (milestonesToPrune info.pruningIndex tc)
      { info with entryPointIndex := tc } sC).1.persistTrace = sC.persistTrace :=
    congrArg CtrlView.persistTrace hctrl
  have hpt2 : sC.persistTrace =
      s.persistTrace ++ [⟨info.snapshotIndex, tc, info.pruningIndex⟩] :=
    congrArg CtrlView.persistTrace (ctrlView_pruneUnconfirmedMessages _ _)
  exact ⟨rfl, rfl, hsi.trans hsi2, hpt.trans hpt2⟩

/-- Claim C3: any requested target above the clamp behaves exactly as the
clamped request, the excess is not an error; in Scenario A of the spec the
request 2000 is clamped to 899, the run succeeds, the pruning loop covers
milestones 1 through 899, and the boundary is advanced to 899. -/
theorem c3_clamp_monotone :
    (∀ (o : Oracle) (s : Store) (t : Nat) (info : SnapshotInfo),
      s.snapshotInfo = some info →
      SolidEntryPointCheckThresholdPast + AdditionalPruningThreshold + 1 ≤ info.snapshotIndex →
      info.snapshotIndex - SolidEntryPointCheckThresholdPast - AdditionalPruningThreshold - 1 < t →
      pruneDatabase o s t =
        pruneDatabase o s (info.snapshotIndex - SolidEntryPointCheckThresholdPast -
          AdditionalPruningThreshold - 1)) ∧
    milestonesToPrune 0 899 = List.range' 1 899 ∧
    pruneDatabase baseOracle scenarioAStore 2000 = pruneDatabase baseOracle scenarioAStore 899 ∧
    (pruneDatabase baseOracle scenarioAStore 2000).2 = .success ∧
    (pruneDatabase baseOracle scenarioAStore 2000).1.snapshotInfo = some ⟨1000, 899, 0⟩ := by
  have hgen : ∀ (o : Oracle) (s : Store) (t : Nat) (info : SnapshotInfo),
      s.snapshotInfo = some info →
      SolidEntryPointCheckThresholdPast + AdditionalPruningThreshold + 1 ≤ info.snapshotIndex →
      info.snapshotIndex - SolidEntryPointCheckThresholdPast - AdditionalPruningThreshold - 1 < t →
      pruneDatabase o s t =
        pruneDatabase o s (info.snapshotIndex - SolidEntryPointCheckThresholdPast -
          AdditionalPruningThreshold - 1) := by
    intro o s t info hs h1 h2
    simp only [pruneDatabase, hs]
    have hno1 : ¬ (info.snapshotIndex <
        SolidEntryPointCheckThresholdPast + AdditionalPruningThreshold + 1) := by omega
    set M := info.snapshotIndex - SolidEntryPointCheckThresholdPast -
      AdditionalPruningThreshold - 1 with hM
    have hcl : (if t > M then M else t) = M := if_pos h2
    have hcr : (if M > M then M else M) = M := if_neg (by omega)
    rw [if_neg hno1, if_neg hno1, hcl, hcr]
  have hsc : pruneDatabase baseOracle scenarioAStore 2000 =
      pruneDatabase baseOracle scenarioAStore 899 :=
    hgen baseOracle scenarioAStore 2000 ⟨1000, 0, 0⟩ rfl (by decide) (by decide)
  have hsk := pruneDatabase_skipAll baseOracle scenarioAStore 2000 899 ⟨1000, 0, 0⟩ rfl
    (by decide) (by decide) (by decide) (by decide) rfl (fun m _ _ => rfl)
    (fun m _ _ => Or.inl rfl)
  exact ⟨hgen, rfl, hsc, hsk.1, hsk.2.2.1⟩

/-- Witness for C3: the universal clamp equation applied at the Scenario A
store and the over-large request 2000. -/
theorem c3_clamp_monotone_witness :
    pruneDatabase baseOracle scenarioAStore 2000 = pruneDatabase baseOracle scenarioAStore 899 :=
  c3_clamp_monotone.1 baseOracle scenarioAStore 2000 ⟨1000, 0, 0⟩ rfl (by decide) (by decide)

/-- Claim C4: when the minimum-history and no-pruning-needed checks pass
but the clamped target is within AdditionalPruningThreshold of the
persisted EntryPointIndex, pruneDatabase returns the NotEnoughHistory
error carrying the minimum index and performs no mutation at all: the
returned store is the input store, so the pruning flag was never raised,
no solid entry point, retention record, vertex, milestone or index entry
was touched. -/
theorem c4_threshold_rejection (o : Oracle) (s : Store) (t tc : Nat)
    (info : SnapshotInfo)
    (hs : s.snapshotInfo = some info)
    (h1 : SolidEntryPointCheckThresholdPast + AdditionalPruningThreshold + 1 ≤ info.snapshotIndex)
    (htc : tc = if t > info.snapshotIndex - SolidEntryPointCheckThresholdPast -
      AdditionalPruningThreshold - 1 then
        info.snapshotIndex - SolidEntryPointCheckThresholdPast - AdditionalPruningThreshold - 1
      else t)
    (h2 : info.pruningIndex < tc)
    (h3 : tc < info.entryPointIndex + AdditionalPruningThreshold + 1) :
    pruneDatabase o s t =
      (s, .notEnoughHistory (info.entryPointIndex + AdditionalPruningThreshold + 1) tc) := by
  simp only [pruneDatabase, hs]
  have hno1 : ¬ (info.snapshotIndex <
      SolidEntryPointCheckThresholdPast + AdditionalPruningThreshold + 1) := by omega
  have hno2 : ¬ (info.pruningIndex ≥ tc) := by omega
  have hpos : info.entryPointIndex + AdditionalPruningThreshold + 1 > tc := by omega
  rw [if_neg hno1, ← htc, if_neg hno2, if_pos hpos]

/-- Witness for C4: a concrete threshold rejection with EntryPointIndex
860 against clamped target 899 returns NotEnoughHistory 911 and the
untouched store. -/
theorem c4_threshold_rejection_witness :
    pruneDatabase baseOracle c4Store 899 = (c4Store, .notEnoughHistory 911 899) :=
  c4_threshold_rejection baseOracle c4Store 899 899 ⟨1000, 860, 0⟩ rfl (by decide) (by decide)
    (by decide) (by decide)

/-- Claim C1 as amended: when the boundary walker fails, pruneDatabase
propagates the error, does not advance EntryPointIndex (no retention state
is written at all) and deletes nothing, but the recomputed
solid-entry-point set, namely the entries enumerated before the failure,
is persisted and replaces the previous set, because StoreSolidEntryPoints
runs before the error check. -/
theorem c1_amended_walker_failure (o : Oracle) (s : Store) (t tc : Nat)
    (info : SnapshotInfo) (e : Nat)
    (hs : s.snapshotInfo = some info)
    (h1 : SolidEntryPointCheckThresholdPast + AdditionalPruningThreshold + 1 ≤ info.snapshotIndex)
    (htc : tc = if t > info.snapshotIndex - SolidEntryPointCheckThresholdPast -
      AdditionalPruningThreshold - 1 then
        info.snapshotIndex - SolidEntryPointCheckThresholdPast - AdditionalPruningThreshold - 1
      else t)
    (h2 : info.pruningIndex < tc)
    (h3 : info.entryPointIndex + AdditionalPruningThreshold + 1 ≤ tc)
    (he : o.sepErr = some e) :
    (pruneDatabase o s t).2 = .walkError e ∧
    (pruneDatabase o s t).1.snapshotInfo = s.snapshotInfo ∧
    (pruneDatabase o s t).1.persistTrace = s.persistTrace ∧
    (pruneDatabase o s t).1.msgs = s.msgs ∧
    (pruneDatabase o s t).1.unconfirmed = s.unconfirmed ∧
    (pruneDatabase o s t).1.milestones = s.milestones ∧
    (pruneDatabase o s t).1.ledgerDiffs = s.ledgerDiffs ∧
    (pruneDatabase o s t).1.deletionCalls = s.deletionCalls ∧
    (pruneDatabase o s t).1.storedSeps = o.sepEnum := by
  rw [pruneDatabase_main o s t tc info hs h1 htc h2 h3]
  unfold pruneDatabaseLocked
  rw [sepPhase_eq]
  unfold lockedRest
  rw [he]
  exact ⟨rfl, rfl, rfl, rfl, rfl, rfl, rfl, rfl, rfl⟩

/-- Witness for C1 as amended: the concrete failing run of the
counterexample store, with the previous persisted set replaced by the
empty enumeration. -/
theorem c1_amended_walker_failure_witness :
    (pruneDatabase c1Oracle c1Store 899).2 = .walkError 77 ∧
    (pruneDatabase c1Oracle c1Store 899).1.persistTrace = c1Store.persistTrace ∧
    (pruneDatabase c1Oracle c1Store 899).1.storedSeps = c1Oracle.sepEnum := by
  have h := c1_amended_walker_failure c1Oracle c1Store 899 899 ⟨1000, 0, 898⟩ 77 rfl (by decide)
    (by decide) (by decide) (by decide) rfl
  exact ⟨h.1, h.2.2.1, h.2.2.2.2.2.2.2.2⟩

/-- Claim C10: if every milestone in the pruning range is absent (or its
cone traversal fails externally), the run skips every index without
persisting per-milestone progress, still returns success and triggers the
garbage collection, with EntryPointIndex advanced to the target while
PruningIndex is unchanged: the only persisted retention record is the
EntryPointIndex update. -/
theorem c10_skipped_run_returns_success (o : Oracle) (s : Store) (t tc : Nat)
    (info : SnapshotInfo)
    (hs : s.snapshotInfo = some info)
    (h1 : SolidEntryPointCheckThresholdPast + AdditionalPruningThreshold + 1 ≤ info.snapshotIndex)
    (htc : tc = if t > info.snapshotIndex - SolidEntryPointCheckThresholdPast -
      AdditionalPruningThreshold - 1 then
        info.snapshotIndex - SolidEntryPointCheckThresholdPast - AdditionalPruningThreshold - 1
      else t)
    (h2 : info.pruningIndex < tc)
    (h3 : info.entryPointIndex + AdditionalPruningThreshold + 1 ≤ tc)
    (hsep : o.sepErr = none)
    (hab : ∀ m, info.pruningIndex + 1 ≤ m → m ≤ tc → o.abortAt m = false)
    (hmil : ∀ m, info.pruningIndex + 1 ≤ m → m ≤ tc →
      lookupMilestone s m = none ∨ o.traverseErr m ≠ none) :
    (pruneDatabase o s t).2 = .success ∧
    (pruneDatabase o s t).1.gcRan = true ∧
    (pruneDatabase o s t).1.snapshotInfo = some ⟨info.snapshotIndex, tc, info.pruningIndex⟩ ∧
    (pruneDatabase o s t).1.persistTrace =
      s.persistTrace ++ [⟨info.snapshotIndex, tc, info.pruningIndex⟩] :=
  pruneDatabase_skipAll o s t tc info hs h1 htc h2 h3 hsep hab hmil

/-- Witness for C10: a store whose milestone range 2 to 52 is entirely
absent runs to success with garbage collection triggered, PruningIndex
still 1 and EntryPointIndex advanced to 52. -/
theorem c10_skipped_run_returns_success_witness :
    (pruneDatabase baseOracle c6Store 52).2 = .success ∧
    (pruneDatabase baseOracle c6Store 52).1.gcRan = true ∧
    (pruneDatabase baseOracle c6Store 52).1.snapshotInfo = some ⟨153, 52, 1⟩ ∧
    (pruneDatabase baseOracle c6Store 52).1.persistTrace =
      c6Store.persistTrace ++ [⟨153, 52, 1⟩] := by
  have h := c10_skipped_run_returns_success baseOracle c6Store 52 52 ⟨153, 1, 1⟩ rfl
    (by decide) (by decide) (by decide) (by decide) rfl (fun m _ _ => rfl)
    (fun m _ _ => Or.inl rfl)
  exact h

lemma pruneMilestone_fst_persistTrace (le : Nat → Option Nat) (s : Store) (i : Nat) :
    (pruneMilestone le s i).1.persistTrace = s.persistTrace := by
  unfold pruneMilestone
  cases le i <;> rfl

lemma pruneMilestone_fst_snapshotInfo (le : Nat → Option Nat) (s : Store) (i : Nat) :
    (pruneMilestone le s i).1.snapshotInfo = s.snapshotInfo := by
  unfold pruneMilestone
  cases le i <;> rfl

lemma pruneMilestoneStep_trace (o : Oracle) (info : SnapshotInfo) (s : Store) (m : Nat) :
    ((pruneMilestoneStep o info s m).2 = info ∧
     (pruneMilestoneStep o info s m).1.persistTrace = s.persistTrace ∧
     (pruneMilestoneStep o info s m).1.snapshotInfo = s.snapshotInfo) ∨
    ((pruneMilestoneStep o info s m).2 = { info with pruningIndex := m } ∧
     (pruneMilestoneStep o info s m).1.persistTrace =
       s.persistTrace ++ [{ info with pruningIndex := m }] ∧
     (pruneMilestoneStep o info s m).1.snapshotInfo = some { info with pruningIndex := m }) := by
  have hv := ctrlView_pruneUnconfirmedMessages s m
  simp only [pruneMilestoneStep]
  cases hlm : lookupMilestone (pruneUnconfirmedMessages s m).1 m with
  | none =>
    exact Or.inl ⟨rfl, congrArg CtrlView.persistTrace hv, congrArg CtrlView.snapshotInfo hv⟩
  | some tailId =>
    cases ht : o.traverseErr m with
    | some e =>
      exact Or.inl ⟨rfl, congrArg CtrlView.persistTrace hv, congrArg CtrlView.snapshotInfo hv⟩
    | none =>
      right
      refine ⟨rfl, ?_, rfl⟩
      have h1 : (pruneUnconfirmedMessages s m).1.persistTrace = s.persistTrace :=
        congrArg CtrlView.persistTrace hv
      have h2 := pruneMilestone_fst_persistTrace o.ledgerErr (pruneUnconfirmedMessages s m).1 m
      have h3 : (pruneMessages
          (recordDeletionCall (pruneMilestone o.ledgerErr (pruneUnconfirmedMessages s m).1 m).1
            (coneReachable (pruneUnconfirmedMessages s m).1.msgs tailId))
          (coneReachable (pruneUnconfirmedMessages s m).1.msgs tailId)).1.persistTrace =
          (pruneMilestone o.ledgerErr (pruneUnconfirmedMessages s m).1 m).1.persistTrace :=
        congrArg CtrlView.persistTrace (ctrlView_pruneMessages _ _)
      have h4 := h3.trans (h2.trans h1)
      exact congrArg (fun l => l ++ [{ info with pruningIndex := m }]) h4

lemma pruneLoop_trace (o : Oracle) (ms : List Nat) :
    ∀ (info : SnapshotInfo) (s : Store),
      (∀ m ∈ ms, m ≤ info.entryPointIndex) →
      info.entryPointIndex ≤ info.snapshotIndex →
      ((∀ j ∈ (pruneLoop o ms info s).1.persistTrace,
          j ∈ s.persistTrace ∨
            (j.pruningIndex ≤ j.entryPointIndex ∧ j.entryPointIndex ≤ j.snapshotIndex)) ∧
       ((pruneLoop o ms info s).1.snapshotInfo = s.snapshotInfo ∨
        ∃ j, (pruneLoop o ms info s).1.snapshotInfo = some j ∧
          j.pruningIndex ≤ j.entryPointIndex ∧ j.entryPointIndex ≤ j.snapshotIndex)) := by
  induction ms with
  | nil => intro info s _ _; exact ⟨fun j hj => Or.inl hj, Or.inl rfl⟩
  | cons m rest ih =>
    intro info s hms hts
    rw [pruneLoop]
    cases hab : o.abortAt m with
    | true =>
      rw [if_pos rfl]
      exact ⟨fun j hj => Or.inl hj, Or.inl rfl⟩
    | false =>
      simp only [Bool.false_eq_true, if_false]
      rcases pruneMilestoneStep_trace o info s m with ⟨h2, htr, hsi⟩ | ⟨h2, htr, hsi⟩
      · rw [h2]
        have ihr := ih info (pruneMilestoneStep o info s m).1
          (fun m2 hm2 => hms m2 (by simp [hm2])) hts
        refine ⟨fun j hj => ?_, ?_⟩
        · rcases ihr.1 j hj with hmem | hinv
          · exact Or.inl (htr ▸ hmem)
          · exact Or.inr hinv
        · rcases ihr.2 with heq | hex
          · exact Or.inl (heq.trans hsi)
          · exact Or.inr hex
      · rw [h2]
        have hm1 : m ≤ info.entryPointIndex := hms m (by simp)
        have hinv2 : ({ info with pruningIndex := m } : SnapshotInfo).pruningIndex ≤
            ({ info with pruningIndex := m } : SnapshotInfo).entryPointIndex ∧
            ({ info with pruningIndex := m } : SnapshotInfo).entryPointIndex ≤
            ({ info with pruningIndex := m } : SnapshotInfo).snapshotIndex := ⟨hm1, hts⟩
        have ihr := ih { info with pruningIndex := m } (pruneMilestoneStep o info s m).1
          (fun m2 hm2 => hms m2 (by simp [hm2])) hts
        refine ⟨fun j hj => ?_, ?_⟩
        · rcases ihr.1 j hj with hmem | hinv
          · rw [htr] at hmem
            rcases List.mem_append.mp hmem with hmem2 | hmem2
            · exact Or.inl hmem2
            · have : j = { info with pruningIndex := m } := by
                simpa using hmem2
              exact Or.inr (this ▸ hinv2)
          · exact Or.inr hinv
        · rcases ihr.2 with heq | hex
          · exact Or.inr ⟨{ info with pruningIndex := m }, heq.trans hsi, hinv2⟩
          · exact Or.inr hex

/-- Claim C6: every run, whatever its outcome, preserves the retention
invariant PruningIndex le EntryPointIndex le SnapshotIndex: if the state
held it before the run, every retention record persisted during the run
satisfies it, and so does the final persisted state. -/
theorem c6_retention_invariant (o : Oracle) (s : Store) (t : Nat) (info : SnapshotInfo)
    (hs : s.snapshotInfo = some info)
    (hinv : info.pruningIndex ≤ info.entryPointIndex ∧
      info.entryPointIndex ≤ info.snapshotIndex) :
    (∀ j ∈ (pruneDatabase o s t).1.persistTrace,
      j ∈ s.persistTrace ∨
        (j.pruningIndex ≤ j.entryPointIndex ∧ j.entryPointIndex ≤ j.snapshotIndex)) ∧
    (∀ j, (pruneDatabase o s t).1.snapshotInfo = some j →
      j.pruningIndex ≤ j.entryPointIndex ∧ j.entryPointIndex ≤ j.snapshotIndex) := by
  simp only [pruneDatabase, hs]
  by_cases h1 : info.snapshotIndex <
      SolidEntryPointCheckThresholdPast + AdditionalPruningThreshold + 1
  · rw [if_pos h1]
    refine ⟨fun j hj => Or.inl hj, fun j hj => ?_⟩
    rw [hs] at hj
    cases Option.some.inj hj
    exact hinv
  · rw [if_neg h1]
    set tcv := if t > info.snapshotIndex - SolidEntryPointCheckThresholdPast -
      AdditionalPruningThreshold - 1 then
        info.snapshotIndex - SolidEntryPointCheckThresholdPast - AdditionalPruningThreshold - 1
      else t with htcv
    clear_value tcv
    have htcle : tcv ≤ info.snapshotIndex - SolidEntryPointCheckThresholdPast -
        AdditionalPruningThreshold - 1 := by
      rw [htcv]; split
      · exact le_rfl
      · omega
    by_cases h2 : info.pruningIndex ≥ tcv
    · rw [if_pos h2]
      refine ⟨fun j hj => Or.inl hj, fun j hj => ?_⟩
      rw [hs] at hj
      cases Option.some.inj hj
      exact hinv
    · rw [if_neg h2]
      by_cases h3 : info.entryPointIndex + AdditionalPruningThreshold + 1 > tcv
      · rw [if_pos h3]
        refine ⟨fun j hj => Or.inl hj, fun j hj => ?_⟩
        rw [hs] at hj
        cases Option.some.inj hj
        exact hinv
      · rw [if_neg h3]
        have htcs : tcv ≤ info.snapshotIndex := by omega
        simp only [pruneDatabaseLocked, lockedRest]
        rw [sepPhase_eq]
        cases hsep : o.sepErr with
        | some e =>
          refine ⟨fun j hj => Or.inl hj, fun j hj => ?_⟩
          have : s.snapshotInfo = some j := hj
          rw [hs] at this
          cases Option.some.inj this
          exact hinv
        | none =>
          rw [show ({ info with entryPointIndex := tcv } : SnapshotInfo).pruningIndex =
            info.pruningIndex from rfl]
          have hloop := pruneLoop_trace o
            (milestonesToPrune info.pruningIndex tcv)
            { info with entryPointIndex := tcv }
            ((pruneUnconfirmedMessages
              (setSnapshotInfo (withSeps (setIsPruning s true) o.sepEnum o.sepEnum)
                { info with entryPointIndex := tcv }) info.pruningIndex).1)
            (fun m hmem => by
              rw [milestonesToPrune, List.mem_range'_1] at hmem
              show m ≤ tcv
              omega)
            (by show tcv ≤ info.snapshotIndex; exact htcs)
          set sC := (pruneUnconfirmedMessages
            (setSnapshotInfo (withSeps (setIsPruning s true) o.sepEnum o.sepEnum)
              { info with entryPointIndex := tcv }) info.pruningIndex).1 with hsC
          have hCtr : sC.persistTrace =
              s.persistTrace ++ [{ info with entryPointIndex := tcv }] :=
            congrArg CtrlView.persistTrace (ctrlView_pruneUnconfirmedMessages _ _)
          have hCsi : sC.snapshotInfo = some { info with entryPointIndex := tcv } :=
            congrArg CtrlView.snapshotInfo (ctrlView_pruneUnconfirmedMessages _ _)
          have hinfo2 : ({ info with entryPointIndex := tcv } : SnapshotInfo).pruningIndex ≤
              ({ info with entryPointIndex := tcv } : SnapshotInfo).entryPointIndex ∧
              ({ info with entryPointIndex := tcv } : SnapshotInfo).entryPointIndex ≤
              ({ info with entryPointIndex := tcv } : SnapshotInfo).snapshotIndex := by
            constructor
            · show info.pruningIndex ≤ tcv
              omega
            · exact htcs
          have htr2 : ∀ j ∈ (pruneLoop o (milestonesToPrune info.pruningIndex tcv)
              { info with entryPointIndex := tcv } sC).1.persistTrace,
              j ∈ s.persistTrace ∨
                (j.pruningIndex ≤ j.entryPointIndex ∧ j.entryPointIndex ≤ j.snapshotIndex) := by
            intro j hj
            rcases hloop.1 j hj with hmem | hinv2
            · rw [hCtr] at hmem
              rcases List.mem_append.mp hmem with hmem2 | hmem2
              · exact Or.inl hmem2
              · have : j = { info with entryPointIndex := tcv } := by simpa using hmem2
                exact Or.inr (this ▸ hinfo2)
            · exact Or.inr hinv2
          have hsi2 : ∀ j, (pruneLoop o (milestonesToPrune info.pruningIndex tcv)
              { info with entryPointIndex := tcv } sC).1.snapshotInfo = some j →
              j.pruningIndex ≤ j.entryPointIndex ∧ j.entryPointIndex ≤ j.snapshotIndex := by
            intro j hj
            rcases hloop.2 with heq | ⟨j2, hj2, hinv2⟩
            · rw [heq, hCsi] at hj
              cases Option.some.inj hj
              exact hinfo2
            · rw [hj2] at hj
              cases Option.some.inj hj
              exact hinv2
          cases hlp : (pruneLoop o (milestonesToPrune info.pruningIndex tcv)
              { info with entryPointIndex := tcv } sC).2 with
          | true =>
            rw [if_pos rfl]
            exact ⟨htr2, hsi2⟩
          | false =>
            simp only [Bool.false_eq_true, if_false]
            exact ⟨htr2, hsi2⟩

set_option maxRecDepth 10000 in
/-- Witness for C6: a concrete run from the valid state 1 le 1 le 153;
the final persisted state satisfies the invariant. -/
theorem c6_retention_invariant_witness :
    (1 : Nat) ≤ 52 ∧ (52 : Nat) ≤ 153 :=
  (c6_retention_invariant baseOracle c6Store 52 ⟨153, 1, 1⟩ rfl (by decide)).2
    ⟨153, 52, 1⟩ (by decide)

lemma pruneMilestone_lookup_ne (le : Nat → Option Nat) (s : Store) (i j : Nat) (h : j ≠ i) :
    lookupMilestone (pruneMilestone le s i).1 j = lookupMilestone s j := by
  unfold pruneMilestone
  cases hle : le i with
  | some e => rfl
  | none =>
    show lookupMilestone (deleteMilestone (pruneLedgerDiffStore s i) i) j = lookupMilestone s j
    unfold lookupMilestone deleteMilestone
    rw [lookupKey_eraseKey_ne _ _ _ h]
    rfl

lemma pruneMilestoneStep_found (o : Oracle) (info : SnapshotInfo) (s : Store) (m tailId : Nat)
    (hm : lookupMilestone s m = some tailId) (ht : o.traverseErr m = none) :
    (pruneMilestoneStep o info s m).2 = { info with pruningIndex := m } ∧
    (pruneMilestoneStep o info s m).1.snapshotInfo = some { info with pruningIndex := m } ∧
    (pruneMilestoneStep o info s m).1.persistTrace =
      s.persistTrace ++ [{ info with pruningIndex := m }] ∧
    (∀ j, j ≠ m → lookupMilestone (pruneMilestoneStep o info s m).1 j = lookupMilestone s j) := by
  have hv := ctrlView_pruneUnconfirmedMessages s m
  have hvm : (pruneUnconfirmedMessages s m).1.milestones = s.milestones :=
    congrArg CtrlView.milestones hv
  have hm1 : lookupMilestone (pruneUnconfirmedMessages s m).1 m = lookupMilestone s m := by
    unfold lookupMilestone; rw [hvm]
  simp only [pruneMilestoneStep]
  rw [hm1.trans hm, ht]
  refine ⟨rfl, rfl, ?_, ?_⟩
  · have h1t : (pruneUnconfirmedMessages s m).1.persistTrace = s.persistTrace :=
      congrArg CtrlView.persistTrace hv
    have h2t := pruneMilestone_fst_persistTrace o.ledgerErr (pruneUnconfirmedMessages s m).1 m
    have h3t : (pruneMessages
        (recordDeletionCall (pruneMilestone o.ledgerErr (pruneUnconfirmedMessages s m).1 m).1
          (coneReachable (pruneUnconfirmedMessages s m).1.msgs tailId))
        (coneReachable (pruneUnconfirmedMessages s m).1.msgs tailId)).1.persistTrace =
        (pruneMilestone o.ledgerErr (pruneUnconfirmedMessages s m).1 m).1.persistTrace :=
      congrArg CtrlView.persistTrace (ctrlView_pruneMessages _ _)
    exact congrArg (fun l => l ++ [{ info with pruningIndex := m }]) (h3t.trans (h2t.trans h1t))
  · intro j hj
    have l1 : lookupMilestone (pruneUnconfirmedMessages s m).1 j = lookupMilestone s j := by
      unfold lookupMilestone; rw [hvm]
    have l2 : lookupMilestone (pruneMilestone o.ledgerErr (pruneUnconfirmedMessages s m).1 m).1 j =
        lookupMilestone (pruneUnconfirmedMessages s m).1 j :=
      pruneMilestone_lookup_ne o.ledgerErr (pruneUnconfirmedMessages s m).1 m j hj
    have l4 : lookupMilestone (pruneMessages
        (recordDeletionCall (pruneMilestone o.ledgerErr (pruneUnconfirmedMessages s m).1 m).1
          (coneReachable (pruneUnconfirmedMessages s m).1.msgs tailId))
        (coneReachable (pruneUnconfirmedMessages s m).1.msgs tailId)).1 j =
        lookupMilestone (pruneMilestone o.ledgerErr (pruneUnconfirmedMessages s m).1 m).1 j := by
      have hmm : (pruneMessages
          (recordDeletionCall (pruneMilestone o.ledgerErr (pruneUnconfirmedMessages s m).1 m).1
            (coneReachable (pruneUnconfirmedMessages s m).1.msgs tailId))
          (coneReachable (pruneUnconfirmedMessages s m).1.msgs tailId)).1.milestones =
          (pruneMilestone o.ledgerErr (pruneUnconfirmedMessages s m).1 m).1.milestones :=
        congrArg CtrlView.milestones (ctrlView_pruneMessages _ _)
      unfold lookupMilestone; rw [hmm]
    exact l4.trans (l2.trans l1)

lemma pruneLoop_abort_aux (o : Oracle) :
    ∀ (n i : Nat) (info : SnapshotInfo) (s : Store) (ms2 : List Nat),
      s.snapshotInfo = some info →
      info.pruningIndex + 1 = i →
      o.abortAt (i + n) = true →
      (∀ j, i ≤ j → j < i + n →
        o.abortAt j = false ∧ o.traverseErr j = none ∧ (lookupMilestone s j).isSome = true) →
      (pruneLoop o (List.range' i n ++ (i + n) :: ms2) info s).2 = true ∧
      (∃ jf, (pruneLoop o (List.range' i n ++ (i + n) :: ms2) info s).1.snapshotInfo = some jf ∧
        jf.snapshotIndex = info.snapshotIndex ∧ jf.entryPointIndex = info.entryPointIndex ∧
        jf.pruningIndex + 1 = i + n) ∧
      (∀ j, i + n ≤ j →
        lookupMilestone (pruneLoop o (List.range' i n ++ (i + n) :: ms2) info s).1 j =
          lookupMilestone s j) := by
  intro n
  induction n with
  | zero =>
    intro i info s ms2 hsi hpi hab hpre
    rw [show (List.range' i 0 ++ (i + 0) :: ms2) = (i + 0) :: ms2 from rfl]
    rw [pruneLoop, if_pos hab]
    exact ⟨rfl, ⟨info, hsi, rfl, rfl, by omega⟩, fun j _ => rfl⟩
  | succ n ih =>
    intro i info s ms2 hsi hpi hab hpre
    have hnum : i + (n + 1) = i + 1 + n := by omega
    rw [hnum] at hab ⊢
    rw [List.range'_succ, List.cons_append, pruneLoop]
    have habi : o.abortAt i = false := (hpre i le_rfl (by omega)).1
    rw [habi]
    simp only [Bool.false_eq_true, if_false]
    obtain ⟨-, hti, hsome⟩ := hpre i le_rfl (by omega)
    obtain ⟨tailId, htail⟩ := Option.isSome_iff_exists.mp hsome
    have hstep := pruneMilestoneStep_found o info s i tailId htail hti
    rw [hstep.1]
    have ihr := ih (i + 1) { info with pruningIndex := i } (pruneMilestoneStep o info s i).1 ms2
      hstep.2.1 rfl hab
      (fun j hj1 hj2 => by
        have hjne : j ≠ i := by omega
        refine ⟨(hpre j (by omega) (by omega)).1, (hpre j (by omega) (by omega)).2.1, ?_⟩
        rw [hstep.2.2.2 j hjne]
        exact (hpre j (by omega) (by omega)).2.2)
    obtain ⟨ih1, ⟨jf, ihsi, ihsn, ihep, ihpi⟩, ihlook⟩ := ihr
    refine ⟨ih1, ⟨jf, ihsi, ihsn, ihep, by omega⟩, ?_⟩
    intro j hj
    rw [ihlook j (by omega)]
    exact hstep.2.2.2 j (by omega)

/-- Claim C5 as amended: if the abort signal is first observed at the
loop-top check for milestone k, the run returns PruningAborted, no
milestone record at or after k is touched, and the persisted
EntryPointIndex is the target; the persisted PruningIndex equals k minus
one provided every milestone strictly between the starting PruningIndex
and k was found and its cone traversal succeeded (the counterexample shows
that a skipped milestone breaks the unconditional k minus one claim). -/
theorem c5_amended_abort (o : Oracle) (s : Store) (t tc k : Nat) (info : SnapshotInfo)
    (hs : s.snapshotInfo = some info)
    (h1 : SolidEntryPointCheckThresholdPast + AdditionalPruningThreshold + 1 ≤ info.snapshotIndex)
    (htc : tc = if t > info.snapshotIndex - SolidEntryPointCheckThresholdPast -
      AdditionalPruningThreshold - 1 then
        info.snapshotIndex - SolidEntryPointCheckThresholdPast - AdditionalPruningThreshold - 1
      else t)
    (h2 : info.pruningIndex < tc)
    (h3 : info.entryPointIndex + AdditionalPruningThreshold + 1 ≤ tc)
    (hsep : o.sepErr = none)
    (hk1 : info.pruningIndex + 1 ≤ k) (hk2 : k ≤ tc)
    (habk : o.abortAt k = true)
    (hpre : ∀ j, info.pruningIndex + 1 ≤ j → j < k →
      o.abortAt j = false ∧ o.traverseErr j = none ∧ (lookupMilestone s j).isSome = true) :
    (pruneDatabase o s t).2 = .pruningAborted ∧
    (pruneDatabase o s t).1.snapshotInfo = some ⟨info.snapshotIndex, tc, k - 1⟩ ∧
    (∀ j, k ≤ j → lookupMilestone (pruneDatabase o s t).1 j = lookupMilestone s j) := by
  rw [pruneDatabase_main o s t tc info hs h1 htc h2 h3]
  simp only [pruneDatabaseLocked, lockedRest, hsep]
  rw [sepPhase_eq]
  rw [show ({ info with entryPointIndex := tc } : SnapshotInfo).pruningIndex =
    info.pruningIndex from rfl]
  set sC := (pruneUnconfirmedMessages
    (setSnapshotInfo (withSeps (setIsPruning s true) o.sepEnum o.sepEnum)
      { info with entryPointIndex := tc }) info.pruningIndex).1 with hsC
  have he : info.pruningIndex + 1 + (k - (info.pruningIndex + 1)) = k := by omega
  have hsplit : milestonesToPrune info.pruningIndex tc =
      List.range' (info.pruningIndex + 1) (k - (info.pruningIndex + 1)) ++
      ((info.pruningIndex + 1) + (k - (info.pruningIndex + 1))) :: List.range' (k + 1) (tc - k) := by
    rw [milestonesToPrune, he]
    have e2 : (k :: List.range' (k + 1) (tc - k)) = List.range' k (tc - k + 1) :=
      (List.range'_succ k (tc - k) 1).symm
    rw [e2]
    have e3 := List.range'_append (info.pruningIndex + 1) (k - (info.pruningIndex + 1))
      (tc - k + 1) 1
    simp only [one_mul] at e3
    rw [he] at e3
    rw [e3]
    congr 1
    omega
  rw [hsplit]
  have hCsi : sC.snapshotInfo = some { info with entryPointIndex := tc } :=
    congrArg CtrlView.snapshotInfo (ctrlView_pruneUnconfirmedMessages _ _)
  have hCmil : sC.milestones = s.milestones :=
    congrArg CtrlView.milestones (ctrlView_pruneUnconfirmedMessages _ _)
  have hClook : ∀ j, lookupMilestone sC j = lookupMilestone s j := by
    intro j; unfold lookupMilestone; rw [hCmil]
  have haux := pruneLoop_abort_aux o (k - (info.pruningIndex + 1)) (info.pruningIndex + 1)
    { info with entryPointIndex := tc } sC (List.range' (k + 1) (tc - k))
    hCsi rfl
    (by rw [he]; exact habk)
    (fun j hj1 hj2 => by
      have hj2k : j < k := by omega
      refine ⟨(hpre j hj1 hj2k).1, (hpre j hj1 hj2k).2.1, ?_⟩
      rw [hClook j]
      exact (hpre j hj1 hj2k).2.2)
  rw [he] at haux ⊢
  obtain ⟨haux1, ⟨jf, hjf, hjsn, hjep, hjpi⟩, hlook⟩ := haux
  rw [if_pos haux1]
  have hjsn2 : jf.snapshotIndex = info.snapshotIndex := hjsn
  have hjep2 : jf.entryPointIndex = tc := hjep
  have hjeq : jf = ⟨info.snapshotIndex, tc, k - 1⟩ := by
    obtain ⟨a, b, c⟩ := jf
    simp only [SnapshotInfo.mk.injEq]
    refine ⟨hjsn2, hjep2, ?_⟩
    simp only [] at hjpi
    omega
  refine ⟨rfl, ?_, ?_⟩
  · exact hjf.trans (congrArg some hjeq)
  · intro j hj
    exact (hlook j hj).trans (hClook j)

/-- Witness for C5 as amended: with milestone 898 present and processed,
the abort observed at 899 leaves PruningIndex 898 persisted. -/
theorem c5_amended_abort_witness :
    (pruneDatabase c5Oracle c5wStore 899).2 = .pruningAborted ∧
    (pruneDatabase c5Oracle c5wStore 899).1.snapshotInfo = some ⟨1000, 899, 898⟩ := by
  have h := c5_amended_abort c5Oracle c5wStore 899 899 899 ⟨1000, 848, 897⟩ rfl (by decide)
    (by decide) (by decide) (by decide) rfl (by decide) (by decide) (by decide)
    (fun j hj1 hj2 => by
      have hj1n : (898 : Nat) ≤ j := hj1
      have hje : j = 898 := by omega
      subst hje
      exact ⟨by decide, rfl, by decide⟩)
  exact ⟨h.1, h.2.1⟩

lemma lookupMsg_withSeps (s : Store) (a b : List (Nat × Nat)) (id : Nat) :
    lookupMsg (withSeps s a b) id = lookupMsg s id := rfl

lemma lookupMilestone_withSeps (s : Store) (a b : List (Nat × Nat)) (i : Nat) :
    lookupMilestone (withSeps s a b) i = lookupMilestone s i := rfl

lemma pruneMessageStep_withSeps (s : Store) (a b : List (Nat × Nat)) (id : Nat) :
    pruneMessageStep (withSeps s a b) id = withSeps (pruneMessageStep s id) a b := by
  unfold pruneMessageStep
  rw [lookupMsg_withSeps]
  cases h : lookupMsg s id with
  | none => rfl
  | some msg => cases hx : msg.indexation <;> simp only [hx] <;> rfl

lemma foldl_pruneMessageStep_withSeps (ids : List Nat) :
    ∀ (s : Store) (a b : List (Nat × Nat)),
      List.foldl pruneMessageStep (withSeps s a b) ids =
        withSeps (List.foldl pruneMessageStep s ids) a b := by
  induction ids with
  | nil => intro s a b; rfl
  | cons x xs ih =>
    intro s a b
    rw [List.foldl_cons, List.foldl_cons, pruneMessageStep_withSeps, ih]

lemma pruneMessages_withSeps_fst (s : Store) (a b : List (Nat × Nat)) (ids : List Nat) :
    (pruneMessages (withSeps s a b) ids).1 = withSeps (pruneMessages s ids).1 a b :=
  foldl_pruneMessageStep_withSeps ids s a b

lemma pruneUnconfirmedMessages_withSeps_fst (s : Store) (a b : List (Nat × Nat)) (i : Nat) :
    (pruneUnconfirmedMessages (withSeps s a b) i).1 =
      withSeps (pruneUnconfirmedMessages s i).1 a b := by
  have h := pruneMessages_withSeps_fst (recordDeletionCall s (collectUnconfirmedToDelete s i))
    a b (collectUnconfirmedToDelete s i)
  show deleteUnconfirmedMessages (pruneMessages
      (withSeps (recordDeletionCall s (collectUnconfirmedToDelete s i)) a b)
      (collectUnconfirmedToDelete s i)).1 i =
    withSeps (deleteUnconfirmedMessages (pruneMessages
      (recordDeletionCall s (collectUnconfirmedToDelete s i))
      (collectUnconfirmedToDelete s i)).1 i) a b
  rw [h]
  rfl

lemma pruneMilestone_withSeps_fst (le : Nat → Option Nat) (s : Store) (a b : List (Nat × Nat))
    (i : Nat) :
    (pruneMilestone le (withSeps s a b) i).1 = withSeps (pruneMilestone le s i).1 a b := by
  unfold pruneMilestone
  cases hle : le i with
  | some e => rfl
  | none => rfl

lemma pruneMilestoneStep_eq_notFound (o : Oracle) (info : SnapshotInfo) (s : Store) (m : Nat)
    (hm : lookupMilestone (pruneUnconfirmedMessages s m).1 m = none) :
    pruneMilestoneStep o info s m = ((pruneUnconfirmedMessages s m).1, info) := by
  simp only [pruneMilestoneStep]
  rw [hm]

lemma pruneMilestoneStep_eq_travErr (o : Oracle) (info : SnapshotInfo) (s : Store)
    (m tailId e : Nat)
    (hm : lookupMilestone (pruneUnconfirmedMessages s m).1 m = some tailId)
    (ht : o.traverseErr m = some e) :
    pruneMilestoneStep o info s m = ((pruneUnconfirmedMessages s m).1, info) := by
  simp only [pruneMilestoneStep]
  rw [hm, ht]

lemma pruneMilestoneStep_eq_found (o : Oracle) (info : SnapshotInfo) (s : Store)
    (m tailId : Nat)
    (hm : lookupMilestone (pruneUnconfirmedMessages s m).1 m = some tailId)
    (ht : o.traverseErr m = none) :
    pruneMilestoneStep o info s m =
      (setSnapshotInfo
        (pruneMessages
          (recordDeletionCall (pruneMilestone o.ledgerErr (pruneUnconfirmedMessages s m).1 m).1
            (coneReachable (pruneUnconfirmedMessages s m).1.msgs tailId))
          (coneReachable (pruneUnconfirmedMessages s m).1.msgs tailId)).1
        { info with pruningIndex := m },
       { info with pruningIndex := m }) := by
  simp only [pruneMilestoneStep]
  rw [hm, ht]

lemma pruneMilestoneStep_withSeps (o : Oracle) (info : SnapshotInfo) (s : Store)
    (a b : List (Nat × Nat)) (m : Nat) :
    (pruneMilestoneStep o info (withSeps s a b) m).1 =
      withSeps (pruneMilestoneStep o info s m).1 a b ∧
    (pruneMilestoneStep o info (withSeps s a b) m).2 = (pruneMilestoneStep o info s m).2 := by
  cases hlm : lookupMilestone (pruneUnconfirmedMessages s m).1 m with
  | none =>
    have hlmW : lookupMilestone (pruneUnconfirmedMessages (withSeps s a b) m).1 m = none := by
      rw [pruneUnconfirmedMessages_withSeps_fst, lookupMilestone_withSeps]
      exact hlm
    rw [pruneMilestoneStep_eq_notFound o info (withSeps s a b) m hlmW,
      pruneMilestoneStep_eq_notFound o info s m hlm,
      pruneUnconfirmedMessages_withSeps_fst]
    exact ⟨rfl, rfl⟩
  | some tailId =>
    have hlmW : lookupMilestone (pruneUnconfirmedMessages (withSeps s a b) m).1 m =
        some tailId := by
      rw [pruneUnconfirmedMessages_withSeps_fst, lookupMilestone_withSeps]
      exact hlm
    cases ht : o.traverseErr m with
    | some e =>
      rw [pruneMilestoneStep_eq_travErr o info (withSeps s a b) m tailId e hlmW ht,
        pruneMilestoneStep_eq_travErr o info s m tailId e hlm ht,
        pruneUnconfirmedMessages_withSeps_fst]
      exact ⟨rfl, rfl⟩
    | none =>
      rw [pruneMilestoneStep_eq_found o info (withSeps s a b) m tailId hlmW ht,
        pruneMilestoneStep_eq_found o info s m tailId hlm ht,
        pruneUnconfirmedMessages_withSeps_fst]
      rw [show coneReachable (withSeps (pruneUnconfirmedMessages s m).1 a b).msgs tailId =
        coneReachable (pruneUnconfirmedMessages s m).1.msgs tailId from rfl]
      rw [pruneMilestone_withSeps_fst]
      rw [show recordDeletionCall
          (withSeps (pruneMilestone o.ledgerErr (pruneUnconfirmedMessages s m).1 m).1 a b)
          (coneReachable (pruneUnconfirmedMessages s m).1.msgs tailId) =
        withSeps (recordDeletionCall
          (pruneMilestone o.ledgerErr (pruneUnconfirmedMessages s m).1 m).1
          (coneReachable (pruneUnconfirmedMessages s m).1.msgs tailId)) a b from rfl]
      rw [pruneMessages_withSeps_fst]
      exact ⟨rfl, rfl⟩

lemma pruneLoop_withSeps (o : Oracle) (ms : List Nat) :
    ∀ (info : SnapshotInfo) (s : Store) (a b : List (Nat × Nat)),
      (pruneLoop o ms info (withSeps s a b)).1 = withSeps (pruneLoop o ms info s).1 a b ∧
      (pruneLoop o ms info (withSeps s a b)).2 = (pruneLoop o ms info s).2 := by
  induction ms with
  | nil => intro info s a b; exact ⟨rfl, rfl⟩
  | cons m rest ih =>
    intro info s a b
    rw [pruneLoop, pruneLoop]
    cases hab : o.abortAt m with
    | true => exact ⟨rfl, rfl⟩
    | false =>
      simp only [Bool.false_eq_true, if_false]
      have hstep := pruneMilestoneStep_withSeps o info s a b m
      rw [hstep.1, hstep.2]
      exact ih (pruneMilestoneStep o info s m).2 (pruneMilestoneStep o info s m).1 a b

lemma lockedRest_withSeps (o : Oracle) (s : Store) (a b : List (Nat × Nat))
    (info : SnapshotInfo) (tc : Nat) :
    (lockedRest o (withSeps s a b) info tc).1 = withSeps (lockedRest o s info tc).1 a b ∧
    (lockedRest o (withSeps s a b) info tc).2 = (lockedRest o s info tc).2 := by
  simp only [lockedRest]
  cases hse : o.sepErr with
  | some e => exact ⟨rfl, rfl⟩
  | none =>
    rw [show setSnapshotInfo (withSeps s a b) { info with entryPointIndex := tc } =
      withSeps (setSnapshotInfo s { info with entryPointIndex := tc }) a b from rfl]
    rw [pruneUnconfirmedMessages_withSeps_fst]
    have hlp := pruneLoop_withSeps o
      (milestonesToPrune ({ info with entryPointIndex := tc } : SnapshotInfo).pruningIndex tc)
      { info with entryPointIndex := tc }
      (pruneUnconfirmedMessages
        (setSnapshotInfo s { info with entryPointIndex := tc })
        ({ info with entryPointIndex := tc } : SnapshotInfo).pruningIndex).1 a b
    rw [hlp.1, hlp.2]
    cases hab2 : (pruneLoop o
        (milestonesToPrune ({ info with entryPointIndex := tc } : SnapshotInfo).pruningIndex tc)
        { info with entryPointIndex := tc }
        (pruneUnconfirmedMessages
          (setSnapshotInfo s { info with entryPointIndex := tc })
          ({ info with entryPointIndex := tc } : SnapshotInfo).pruningIndex).1).2 with
    | true => exact ⟨rfl, rfl⟩
    | false => exact ⟨rfl, rfl⟩

lemma pruneMilestoneStep_sepEnum (o : Oracle) (l : List (Nat × Nat)) (info : SnapshotInfo)
    (s : Store) (m : Nat) :
    pruneMilestoneStep { o with sepEnum := l } info s m = pruneMilestoneStep o info s m := rfl

lemma pruneLoop_sepEnum (o : Oracle) (l : List (Nat × Nat)) (ms : List Nat) :
    ∀ (info : SnapshotInfo) (s : Store),
      pruneLoop { o with sepEnum := l } ms info s = pruneLoop o ms info s := by
  induction ms with
  | nil => intro info s; rfl
  | cons m rest ih =>
    intro info s
    rw [pruneLoop, pruneLoop]
    rw [show ({ o with sepEnum := l } : Oracle).abortAt m = o.abortAt m from rfl]
    rw [pruneMilestoneStep_sepEnum, ih]

lemma lockedRest_sepEnum (o : Oracle) (l : List (Nat × Nat)) (s : Store) (info : SnapshotInfo)
    (tc : Nat) :
    lockedRest { o with sepEnum := l } s info tc = lockedRest o s info tc := by
  simp only [lockedRest]
  rw [show ({ o with sepEnum := l } : Oracle).sepErr = o.sepErr from rfl]
  rw [pruneLoop_sepEnum o l]

lemma pruneDatabase_sep_pair (o : Oracle) (s : Store) (t : Nat)
    (l₁ l₂ : List (Nat × Nat)) :
    (pruneDatabase { o with sepEnum := l₁ } s t =
      (withSeps (pruneDatabase { o with sepEnum := l₂ } s t).1 l₁ l₁,
       (pruneDatabase { o with sepEnum := l₂ } s t).2)) ∨
    pruneDatabase { o with sepEnum := l₁ } s t = pruneDatabase { o with sepEnum := l₂ } s t := by
  cases hs : s.snapshotInfo with
  | none =>
    right
    simp only [pruneDatabase, hs]
  | some info =>
    simp only [pruneDatabase, hs]
    by_cases h1 : info.snapshotIndex <
        SolidEntryPointCheckThresholdPast + AdditionalPruningThreshold + 1
    · right; rw [if_pos h1, if_pos h1]
    · rw [if_neg h1, if_neg h1]
      set tcv := if t > info.snapshotIndex - SolidEntryPointCheckThresholdPast -
        AdditionalPruningThreshold - 1 then
          info.snapshotIndex - SolidEntryPointCheckThresholdPast - AdditionalPruningThreshold - 1
        else t with htcv
      by_cases h2 : info.pruningIndex ≥ tcv
      · right; rw [if_pos h2, if_pos h2]
      · rw [if_neg h2, if_neg h2]
        by_cases h3 : info.entryPointIndex + AdditionalPruningThreshold + 1 > tcv
        · right; rw [if_pos h3, if_pos h3]
        · rw [if_neg h3, if_neg h3]
          left
          simp only [pruneDatabaseLocked]
          rw [sepPhase_eq, sepPhase_eq]
          rw [show ({ o with sepEnum := l₁ } : Oracle).sepEnum = l₁ from rfl]
          rw [show ({ o with sepEnum := l₂ } : Oracle).sepEnum = l₂ from rfl]
          rw [lockedRest_sepEnum o l₁ (withSeps (setIsPruning s true) l₁ l₁) info tcv]
          rw [lockedRest_sepEnum o l₂ (withSeps (setIsPruning s true) l₂ l₂) info tcv]
          have hl1 := lockedRest_withSeps o (setIsPruning s true) l₁ l₁ info tcv
          have hl2 := lockedRest_withSeps o (setIsPruning s true) l₂ l₂ info tcv
          rw [hl1.1, hl1.2, hl2.1, hl2.2]
          rfl

/-- Claim C2 as amended: the identifier sets handed to the vertex deletion
engine, and indeed the entire run apart from the two solid-entry-point
fields themselves, are computed independently of the solid-entry-point set
enumerated by the same run, because the cone walk is invoked with
traverseSolidEntryPoints set to true and never consults the boundary set;
membership in the computed set therefore does not keep a vertex out of a
deletion set (the counterexample deletes the target milestone tail, which
the run itself recorded as a solid entry point). -/
theorem c2_amended_deletion_sets_ignore_seps (o : Oracle) (s : Store) (t : Nat)
    (l₁ l₂ : List (Nat × Nat)) :
    (pruneDatabase { o with sepEnum := l₁ } s t).2 =
      (pruneDatabase { o with sepEnum := l₂ } s t).2 ∧
    (pruneDatabase { o with sepEnum := l₁ } s t).1.deletionCalls =
      (pruneDatabase { o with sepEnum := l₂ } s t).1.deletionCalls ∧
    (pruneDatabase { o with sepEnum := l₁ } s t).1.msgs =
      (pruneDatabase { o with sepEnum := l₂ } s t).1.msgs ∧
    withSeps (pruneDatabase { o with sepEnum := l₁ } s t).1 [] [] =
      withSeps (pruneDatabase { o with sepEnum := l₂ } s t).1 [] [] := by
  rcases pruneDatabase_sep_pair o s t l₁ l₂ with h | h
  · rw [h]
    exact ⟨rfl, rfl, rfl, rfl⟩
  · rw [h]
    exact ⟨rfl, rfl, rfl, rfl⟩

end Snapshot
